import Mathlib

/-!
Verification of the core components of the Real-Time-News-Agent repository:
the chat prompt assembler (`api-service/services/gemini_service.py`) and the
daily headlines cache (`api-service/utils/headlines_cache.py`, together with
the deployment-mode switch in `api-service/config.py`).

Python functions are embedded as pure Lean functions; the cache's mutable
state (the in-memory dict, the cache directory contents, the backend flag)
is made an explicit `CacheState` record threaded through the operations, and
the ambient clock (`date.today()`) and wall-clock timestamp are injected as
explicit string parameters.
-/

namespace NewsAgent

/-! ## Prompt assembler (`GeminiService`, gemini_service.py) -/

/-- `GeminiService.count_tokens`: the placeholder estimator
`len(text) // 4` (integer division). -/
def count_tokens (text : String) : Nat := text.length / 4

/-- One pass of the prompt-building concatenation in
`GeminiService.build_prompt` (lines 17-22 and, identically, lines 26-31):
start from the empty string, append the chat-history block when
`chat_history` is truthy (non-empty), always append the selected-article
block, and append the similar-articles block when `similar_articles` is
truthy (non-empty).  `"\n".join(...)` is `String.intercalate "\n"`. -/
def renderPrompt (chat_history : List String) (selected_article : String)
    (similar_articles : List String) : String :=
  (if chat_history.isEmpty then "" else
    "Chat history:\n" ++ String.intercalate "\n" chat_history ++ "\n")
  ++ ("Selected article:\n" ++ selected_article ++ "\n")
  ++ (if similar_articles.isEmpty then "" else
    "Similar articles:\n" ++ String.intercalate "\n" similar_articles ++ "\n")

/-- The trimming `while` loop of `GeminiService.build_prompt` (lines 24-31):
while the token estimate of the current prompt exceeds `token_limit` and
`similar_articles` is non-empty, `similar_articles.pop()` (drop the last
element) and rebuild the prompt from scratch.  The loop is written with a
structural fuel argument so that it computes by `rfl`/`decide`; the body is
only ever entered when the list is non-empty, so each entry shortens the
list by one and any `fuel ≥ similar_articles.length` gives the exact loop
semantics (`build_prompt` below supplies `similar_articles.length`; at
`fuel = 0` the list is forced empty, making the loop condition false, so the
two match arms agree there). -/
def trimLoop (chat_history : List String) (selected_article : String)
    (token_limit : Nat) : Nat → List String → String × List String
  | 0, similar_articles => (renderPrompt chat_history selected_article similar_articles,
      similar_articles)
  | fuel + 1, similar_articles =>
    let prompt := renderPrompt chat_history selected_article similar_articles
    if count_tokens prompt > token_limit ∧ ¬ similar_articles.isEmpty then
      trimLoop chat_history selected_article token_limit fuel similar_articles.dropLast
    else (prompt, similar_articles)

/-- `GeminiService.build_prompt` (lines 15-32).  The Python function both
returns the prompt string and mutates its caller's `similar_articles` list
in place via `pop()`; the embedding returns the pair
(returned prompt, final state of the caller's list).  The source declares
`token_limit` with default value 1000000; callers here always pass it
explicitly. -/
def build_prompt (chat_history : List String) (selected_article : String)
    (similar_articles : List String) (token_limit : Nat) : String × List String :=
  trimLoop chat_history selected_article token_limit similar_articles.length
    similar_articles

/-- Step-counting variant of the trimming loop: returns `none` when `fuel`
loop-condition evaluations do not suffice to leave the loop.  Used to state
that the loop terminates within `len(similar_articles) + 1` iterations. -/
def trimLoopB (chat_history : List String) (selected_article : String)
    (token_limit : Nat) : Nat → List String → Option (String × List String)
  | 0, _ => none
  | fuel + 1, similar_articles =>
    let prompt := renderPrompt chat_history selected_article similar_articles
    if count_tokens prompt > token_limit ∧ ¬ similar_articles.isEmpty then
      trimLoopB chat_history selected_article token_limit fuel similar_articles.dropLast
    else some (prompt, similar_articles)

/-- Python-level view of `build_prompt`, where `selected_article` is the
`Optional[str]` the chat route (`routes/chat.py` line 35) actually supplies.
Line 20 of gemini_service.py concatenates
`"Selected article:\n" + selected_article` unconditionally; in Python,
`str + None` raises `TypeError`, so a `None` article makes the call fail
before any further work.  Fallible code is embedded as `Except`: the `none`
case is the raised `TypeError`, the `some` case runs the total function. -/
def build_prompt_opt (chat_history : List String) (selected_article : Option String)
    (similar_articles : List String) (token_limit : Nat) :
    Except String (String × List String) :=
  match selected_article with
  | none => .error "TypeError: can only concatenate str (not NoneType) to str"
  | some s => .ok (build_prompt chat_history s similar_articles token_limit)

/-! ## Headlines cache (`HeadlinesCache`, headlines_cache.py; `Config`, config.py)

The cache is generic in the article payload `α` (the Python code stores
`List[Dict[str, Any]]` and never inspects the articles).  The in-memory dict
and the cache directory are modelled as association lists keyed by the cache
key / file name; `fs_writable` models whether file writes currently succeed
(e.g. the disk became read-only mid-process). -/

/-- The JSON object `save_headlines` writes (headlines_cache.py lines
112-118): date, timestamp, country, category and the headline list. -/
structure Entry (α : Type) where
  date : String
  timestamp : String
  country : String
  category : Option String
  headlines : List α
deriving DecidableEq

/-- Contents of one file in the cache directory: either JSON that parses to
a cache entry, or data on which `json.load` raises `JSONDecodeError`. -/
inductive FileData (α : Type) where
  | valid (e : Entry α)
  | malformed
deriving DecidableEq

/-- The mutable state of a `HeadlinesCache` object plus the directory it
writes to: the `use_file_cache` flag, the `memory_cache` dict, the files in
the cache directory (name ↦ contents), and whether file writes succeed. -/
structure CacheState (α : Type) where
  use_file_cache : Bool
  memory_cache : List (String × Entry α)
  files : List (String × FileData α)
  fs_writable : Bool
deriving DecidableEq

/-- Dict lookup (first binding wins; `insertKey` keeps keys unique). -/
def lookupKey {β : Type} (k : String) : List (String × β) → Option β
  | [] => none
  | (k', v) :: rest => if k' = k then some v else lookupKey k rest

/-- Dict assignment `m[k] = v`: overwrite any existing binding of `k`. -/
def insertKey {β : Type} (k : String) (v : β) (m : List (String × β)) :
    List (String × β) :=
  (k, v) :: m.filter (fun p => p.1 ≠ k)

/-- Python's truthiness on `Optional[str]`: `None` and `""` are falsy.
Both `get_cache_filename` and `get_cache_key` branch on `if category:`. -/
def truthyCat : Option String → Option String
  | none => none
  | some c => if c = "" then none else some c

/-- `HeadlinesCache.get_cache_filename` (lines 47-52), with `date.today()`
injected as the parameter `today`. -/
def get_cache_filename (country : String) (category : Option String)
    (today : String) : String :=
  match truthyCat category with
  | some c => "headlines_" ++ country ++ "_" ++ c ++ "_" ++ today ++ ".json"
  | none => "headlines_" ++ country ++ "_" ++ today ++ ".json"

/-- `HeadlinesCache.get_cache_key` (lines 54-59), with `date.today()`
injected as the parameter `today`. -/
def get_cache_key (country : String) (category : Option String)
    (today : String) : String :=
  match truthyCat category with
  | some c => country ++ "_" ++ c ++ "_" ++ today
  | none => country ++ "_" ++ today

/-- `HeadlinesCache.is_cache_valid` (lines 61-82).  Memory mode: key
membership.  File mode: a missing file is `False`; a file whose JSON fails
to parse hits the `except (JSONDecodeError, FileNotFoundError)` handler and
is `False`; otherwise the entry's `date` field must equal today. -/
def is_cache_valid {α : Type} (st : CacheState α) (country : String)
    (category : Option String) (today : String) : Bool :=
  if ¬ st.use_file_cache then
    (lookupKey (get_cache_key country category today) st.memory_cache).isSome
  else
    match lookupKey (get_cache_filename country category today) st.files with
    | none => false
    | some .malformed => false
    | some (.valid e) => e.date = today

/-- `HeadlinesCache.get_cached_headlines` (lines 84-108).  Returns `none`
when the cache is not valid.  Memory mode then reads
`memory_cache.get(key, {}).get('headlines', [])`.  File mode re-reads the
file; the `except` handler returns `None` on a vanished or unparsable
file. -/
def get_cached_headlines {α : Type} (st : CacheState α) (country : String)
    (category : Option String) (today : String) : Option (List α) :=
  if ¬ is_cache_valid st country category today then none
  else if ¬ st.use_file_cache then
    match lookupKey (get_cache_key country category today) st.memory_cache with
    | some e => some e.headlines
    | none => some []
  else
    match lookupKey (get_cache_filename country category today) st.files with
    | some (.valid e) => some e.headlines
    | some .malformed => none
    | none => none

/-- `HeadlinesCache.save_headlines` (lines 110-147), with `date.today()` and
`datetime.now()` injected.  Memory mode stores the entry under the cache
key.  File mode writes the file when the filesystem allows it; a failed
write hits the `except Exception` handler, which flips `use_file_cache` to
`False`, resets `memory_cache` to `{}`, stores the entry there, and still
returns `True` — no exception propagates (the embedding is total). -/
def save_headlines {α : Type} (st : CacheState α) (headlines : List α)
    (country : String) (category : Option String) (today timestamp : String) :
    Bool × CacheState α :=
  let cache_data : Entry α :=
    ⟨today, timestamp, country, category, headlines⟩
  let memNew := insertKey (get_cache_key country category today) cache_data st.memory_cache
  let fileNew := insertKey (get_cache_filename country category today)
    (.valid cache_data) st.files
  let memFresh := insertKey (get_cache_key country category today) cache_data []
  if ¬ st.use_file_cache then
    (true, { st with memory_cache := memNew })
  else if st.fs_writable then
    (true, { st with files := fileNew })
  else
    (true, { st with use_file_cache := false, memory_cache := memFresh })

/-- `needle` occurs as a contiguous run at the start of `hay`. -/
def charRunAt : List Char → List Char → Bool
  | [], _ => true
  | _ :: _, [] => false
  | a :: as, b :: bs => a = b && charRunAt as bs

/-- `needle` occurs as a contiguous run somewhere in `hay`. -/
def charRunIn (needle : List Char) : List Char → Bool
  | [] => needle.isEmpty
  | c :: rest => charRunAt needle (c :: rest) || charRunIn needle rest

/-- Python's substring test `sub in s`. -/
def strContainsSub (s sub : String) : Bool := charRunIn sub.toList s.toList

/-- A file name matched by the glob pattern the eviction loop iterates over
(`self.cache_dir.glob("headlines_*.json")`, line 168). -/
def globMatch (name : String) : Bool :=
  name.startsWith "headlines_" && name.endsWith ".json"

/-- `HeadlinesCache.clear_old_cache` (lines 149-174), with `date.today()`
injected.  Memory mode: delete every key in which today's date string does
not occur as a substring (`if today not in key`).  File mode: for every file
matching `headlines_*.json`, unlink it when today's date string does not
occur in its name; when the filesystem refuses writes the first `unlink`
raises, the `except Exception` handler logs, and nothing is removed. -/
def clear_old_cache {α : Type} (st : CacheState α) (today : String) :
    CacheState α :=
  let memKept := st.memory_cache.filter (fun p => strContainsSub p.1 today)
  let filesKept := st.files.filter (fun p => ¬ globMatch p.1 ∨ strContainsSub p.1 today)
  if ¬ st.use_file_cache then { st with memory_cache := memKept }
  else if st.fs_writable then { st with files := filesKept }
  else st

/-- Python's `str.lower()` on the deployment name, character by character
(the deployment values compared against are plain ASCII). -/
def strLower (s : String) : String := ⟨s.data.map Char.toLower⟩

/-- `Config.should_use_external_services` (config.py lines 21-26):
`DEPLOYMENT.lower() in ['development', 'staging']`. -/
def should_use_external_services (deployment : String) : Bool :=
  strLower deployment = "development" || strLower deployment = "staging"

/-- `HeadlinesCache.__init__` (lines 12-45).  In services-enabled mode the
constructor attempts to create the cache directory (`mkdir_ok`) and to
write-and-delete a probe file (`probe_ok`); file mode is chosen exactly when
both succeed.  In services-restricted mode it never touches the filesystem
and uses the in-memory dict.  The cache directory starts as the caller left
it (`files`); the probe file is deleted on success, so `files` is unchanged
by construction. -/
def initCache {α : Type} (deployment : String) (mkdir_ok probe_ok : Bool)
    (files : List (String × FileData α)) (fs_writable : Bool) : CacheState α :=
  if should_use_external_services deployment then
    if mkdir_ok && probe_ok then
      { use_file_cache := true, memory_cache := [], files := files,
        fs_writable := fs_writable }
    else
      { use_file_cache := false, memory_cache := [], files := files,
        fs_writable := fs_writable }
  else
    { use_file_cache := false, memory_cache := [], files := files,
      fs_writable := fs_writable }

/-- The mutating cache operations a caller can perform after construction
(`get_cached_headlines` and `is_cache_valid` are read-only). -/
inductive CacheOp (α : Type) where
  | save (headlines : List α) (country : String) (category : Option String)
      (today timestamp : String)
  | clear (today : String)

/-- Run one cache operation on a state. -/
def applyOp {α : Type} (st : CacheState α) : CacheOp α → CacheState α
  | .save headlines country category today timestamp =>
    (save_headlines st headlines country category today timestamp).2
  | .clear today => clear_old_cache st today

/-- Run a sequence of cache operations left to right. -/
def applyOps {α : Type} (st : CacheState α) (ops : List (CacheOp α)) :
    CacheState α :=
  ops.foldl applyOp st

/-! ## Helper lemmas: prompt assembler -/

/-- Characterization of the trimming loop for sufficient fuel: the result is
the rebuilt prompt over `sim.take k` for the largest prefix length `k` whose
prompt fits the budget (or `k = 0` when none fits), and the final list is
that prefix. -/
theorem trimLoop_char (ch : List String) (sa : String) (lim : Nat) :
    ∀ fuel sim, sim.length ≤ fuel →
    ∃ k, k ≤ sim.length ∧
      trimLoop ch sa lim fuel sim = (renderPrompt ch sa (sim.take k), sim.take k) ∧
      (count_tokens (renderPrompt ch sa (sim.take k)) ≤ lim ∨ k = 0) ∧
      (∀ j, k < j → j ≤ sim.length →
        lim < count_tokens (renderPrompt ch sa (sim.take j))) := by
  intro fuel
  induction fuel with
  | zero =>
    intro sim hlen
    have hsim : sim = [] := List.eq_nil_of_length_eq_zero (Nat.le_zero.mp hlen)
    subst hsim
    refine ⟨0, Nat.le_refl 0, rfl, Or.inr rfl, ?_⟩
    intro j hj hj'
    omega
  | succ fuel ih =>
    intro sim hlen
    by_cases hcond : count_tokens (renderPrompt ch sa sim) > lim ∧ ¬ sim.isEmpty
    · have hne : sim ≠ [] := by
        intro h
        exact hcond.2 (by simp [h])
      have hlen' : sim.dropLast.length ≤ fuel := by
        have := List.length_dropLast sim
        have hpos : 0 < sim.length := List.length_pos.mpr hne
        omega
      obtain ⟨k, hk, heq, hbud, hmax⟩ := ih sim.dropLast hlen'
      have hdl : sim.dropLast = sim.take (sim.length - 1) := List.dropLast_eq_take sim
      have htk : ∀ j, j ≤ sim.length - 1 → sim.dropLast.take j = sim.take j := by
        intro j hj
        rw [hdl, List.take_take, Nat.min_eq_left hj]
      have hkd : k ≤ sim.length - 1 := by
        have := List.length_dropLast sim
        omega
      have hstep : trimLoop ch sa lim (fuel + 1) sim =
          trimLoop ch sa lim fuel sim.dropLast := by
        simp only [trimLoop]
        rw [if_pos hcond]
      refine ⟨k, by omega, ?_, ?_, ?_⟩
      · rw [hstep, heq, htk k hkd]
      · rw [htk k hkd] at hbud
        exact hbud
      · intro j hkj hjle
        by_cases hj : j ≤ sim.length - 1
        · have := hmax j hkj (by rw [List.length_dropLast]; omega)
          rwa [htk j hj] at this
        · have hj' : j = sim.length := by omega
          subst hj'
          rw [List.take_length _]
          exact hcond.1
    · have hstep : trimLoop ch sa lim (fuel + 1) sim =
          (renderPrompt ch sa sim, sim) := by
        simp only [trimLoop]
        rw [if_neg hcond]
      refine ⟨sim.length, Nat.le_refl _, by rw [hstep, List.take_length _], ?_, ?_⟩
      · rw [List.take_length _]
        rcases Decidable.not_and_iff_or_not.mp hcond with h | h
        · exact Or.inl (Nat.le_of_not_lt h)
        · have : sim = [] := by
            rcases sim with _ | _
            · rfl
            · simp at h
          simp [this]
      · intro j hj hj'
        omega

/-- `build_prompt` characterization: instance of `trimLoop_char` at fuel
`sim.length`. -/
theorem build_prompt_char (ch : List String) (sa : String) (sim : List String)
    (lim : Nat) :
    ∃ k, k ≤ sim.length ∧
      build_prompt ch sa sim lim = (renderPrompt ch sa (sim.take k), sim.take k) ∧
      (count_tokens (renderPrompt ch sa (sim.take k)) ≤ lim ∨ k = 0) ∧
      (∀ j, k < j → j ≤ sim.length →
        lim < count_tokens (renderPrompt ch sa (sim.take j))) :=
  trimLoop_char ch sa lim sim.length sim (Nat.le_refl _)

/-- When the full prompt already fits the budget the loop body never runs. -/
theorem build_prompt_no_trim (ch : List String) (sa : String) (sim : List String)
    (lim : Nat) (h : count_tokens (renderPrompt ch sa sim) ≤ lim) :
    build_prompt ch sa sim lim = (renderPrompt ch sa sim, sim) := by
  unfold build_prompt
  cases hl : sim.length with
  | zero => simp [trimLoop]
  | succ n =>
    simp only [trimLoop]
    rw [if_neg]
    intro hc
    exact absurd h (Nat.not_le_of_lt hc.1)

/-- With `sim.length + 1` condition evaluations allowed, the step-counting
loop finishes and agrees with the actual loop. -/
theorem trimLoopB_complete (ch : List String) (sa : String) (lim : Nat) :
    ∀ fuel sim, sim.length ≤ fuel →
    trimLoopB ch sa lim (fuel + 1) sim = some (trimLoop ch sa lim fuel sim) := by
  intro fuel
  induction fuel with
  | zero =>
    intro sim hlen
    have hsim : sim = [] := List.eq_nil_of_length_eq_zero (Nat.le_zero.mp hlen)
    subst hsim
    simp [trimLoopB, trimLoop]
  | succ fuel ih =>
    intro sim hlen
    by_cases hcond : count_tokens (renderPrompt ch sa sim) > lim ∧ ¬ sim.isEmpty
    · have hne : sim ≠ [] := by
        intro h
        exact hcond.2 (by simp [h])
      have hlen' : sim.dropLast.length ≤ fuel := by
        have := List.length_dropLast sim
        have hpos : 0 < sim.length := List.length_pos.mpr hne
        omega
      simp only [trimLoopB, trimLoop]
      rw [if_pos hcond, if_pos hcond]
      exact ih sim.dropLast hlen'
    · rw [trimLoopB, trimLoop]
      rw [if_neg hcond, if_neg hcond]

/-! ## Helper lemmas: cache -/

/-- Looking up the key just inserted yields the inserted value. -/
theorem lookup_insert {β : Type} (k : String) (v : β) (m : List (String × β)) :
    lookupKey k (insertKey k v m) = some v := by
  simp [lookupKey, insertKey]

/-- Removing the bindings of an unrelated key does not affect a lookup. -/
theorem lookup_filter_ne {β : Type} (k k' : String) (h : k' ≠ k)
    (m : List (String × β)) :
    lookupKey k' (m.filter (fun p => p.1 ≠ k)) = lookupKey k' m := by
  induction m with
  | nil => rfl
  | cons p rest ih =>
    obtain ⟨pk, pv⟩ := p
    rw [List.filter_cons]
    by_cases hp : pk = k
    · have hpred : (decide ((pk, pv).1 ≠ k)) = false := by simp [hp]
      rw [hpred, if_neg (by simp), ih, lookupKey,
        if_neg (fun he : pk = k' => h (he ▸ hp))]
    · have hpred : (decide ((pk, pv).1 ≠ k)) = true := by simp [hp]
      rw [hpred, if_pos rfl, lookupKey, lookupKey, ih]

/-- Inserting a different key does not affect a lookup. -/
theorem lookup_insert_ne {β : Type} (k k' : String) (v : β)
    (m : List (String × β)) (h : k' ≠ k) :
    lookupKey k' (insertKey k v m) = lookupKey k' m := by
  rw [insertKey, lookupKey, if_neg (fun he => h he.symm)]
  exact lookup_filter_ne k k' h m

/-- Strings with equal character data are equal. -/
theorem strEta (a b : String) (h : a.data = b.data) : a = b := by
  cases a
  cases b
  simp only at h
  rw [h]

/-- Right factors of a string append are cancellable. -/
theorem strAppend_left_cancel (p d d' : String) (h : p ++ d = p ++ d') :
    d = d' := by
  apply strEta
  have hd := congrArg String.data h
  rw [String.data_append, String.data_append] at hd
  exact List.append_cancel_left hd

/-- Left factors of a string append are cancellable. -/
theorem strAppend_right_cancel (s d d' : String) (h : d ++ s = d' ++ s) :
    d = d' := by
  apply strEta
  have hd := congrArg String.data h
  rw [String.data_append, String.data_append] at hd
  exact List.append_cancel_right hd

/-- Cache keys built for the same (country, category) on different days are
different. -/
theorem get_cache_key_inj_date (country : String) (category : Option String)
    (d d' : String) (h : get_cache_key country category d = get_cache_key country category d') :
    d = d' := by
  have hd := congrArg String.data h
  unfold get_cache_key at hd
  apply strEta
  cases htc : truthyCat category <;> rw [htc] at hd <;>
    simp only [String.data_append, List.append_assoc] at hd
  · exact List.append_cancel_left (List.append_cancel_left hd)
  · exact List.append_cancel_left (List.append_cancel_left
      (List.append_cancel_left (List.append_cancel_left hd)))

/-- Cache file names built for the same (country, category) on different
days are different. -/
theorem get_cache_filename_inj_date (country : String) (category : Option String)
    (d d' : String)
    (h : get_cache_filename country category d = get_cache_filename country category d') :
    d = d' := by
  have hd := congrArg String.data h
  unfold get_cache_filename at hd
  apply strEta
  cases htc : truthyCat category <;> rw [htc] at hd <;>
    simp only [String.data_append, List.append_assoc] at hd
  · exact List.append_cancel_right (List.append_cancel_left
      (List.append_cancel_left (List.append_cancel_left hd)))
  · exact List.append_cancel_right (List.append_cancel_left
      (List.append_cancel_left (List.append_cancel_left
        (List.append_cancel_left (List.append_cancel_left hd)))))

/-- `get` right after `put` on the same day returns the list just put — in
every mode, from every prior state (file mode, memory mode, and the
fallback taken when a file write fails). -/
theorem get_after_save {α : Type} (st : CacheState α) (arts : List α)
    (c : String) (cat : Option String) (d ts : String) :
    get_cached_headlines (save_headlines st arts c cat d ts).2 c cat d = some arts := by
  by_cases hf : st.use_file_cache
  · by_cases hw : st.fs_writable
    · simp [save_headlines, get_cached_headlines, is_cache_valid, hf, hw,
        lookup_insert]
    · simp [save_headlines, get_cached_headlines, is_cache_valid, hf, hw,
        lookup_insert]
  · simp [save_headlines, get_cached_headlines, is_cache_valid, hf,
      lookup_insert]

/-- Starting from an empty cache in any mode, `put` on day `d` followed by
`get` on a different day `d'` misses. -/
theorem save_get_other_day {α : Type} (fm w : Bool) (arts : List α)
    (c : String) (cat : Option String) (d d' ts : String) (hne : d ≠ d') :
    get_cached_headlines
      (save_headlines (⟨fm, [], [], w⟩ : CacheState α) arts c cat d ts).2
      c cat d' = none := by
  have hkey : get_cache_key c cat d' ≠ get_cache_key c cat d :=
    fun he => hne (get_cache_key_inj_date c cat d' d he).symm
  have hfn : get_cache_filename c cat d' ≠ get_cache_filename c cat d :=
    fun he => hne (get_cache_filename_inj_date c cat d' d he).symm
  have hmem : ∀ e : Entry α,
      lookupKey (get_cache_key c cat d')
        (insertKey (get_cache_key c cat d) e []) = none := by
    intro e
    rw [lookup_insert_ne _ _ _ _ hkey]
    rfl
  have hfil : ∀ f : FileData α,
      lookupKey (get_cache_filename c cat d')
        (insertKey (get_cache_filename c cat d) f []) = none := by
    intro f
    rw [lookup_insert_ne _ _ _ _ hfn]
    rfl
  cases fm <;> cases w <;>
    simp [save_headlines, get_cached_headlines, is_cache_valid, hmem, hfil]

/-- A single operation on a cache in memory mode keeps it in memory mode
and leaves the cache directory untouched. -/
theorem applyOp_mem_mode {α : Type} (st : CacheState α) (op : CacheOp α)
    (h : st.use_file_cache = false) :
    (applyOp st op).use_file_cache = false ∧ (applyOp st op).files = st.files := by
  cases op with
  | save arts c cat d ts => simp [applyOp, save_headlines, h]
  | clear d => simp [applyOp, clear_old_cache, h]

/-- Any sequence of operations on a cache in memory mode keeps it in memory
mode and leaves the cache directory untouched. -/
theorem applyOps_mem_mode {α : Type} (ops : List (CacheOp α)) :
    ∀ st : CacheState α, st.use_file_cache = false →
    (applyOps st ops).use_file_cache = false ∧ (applyOps st ops).files = st.files := by
  induction ops with
  | nil =>
    intro st h
    exact ⟨h, rfl⟩
  | cons op rest ih =>
    intro st h
    have h1 := applyOp_mem_mode st op h
    have h2 := ih (applyOp st op) h1.1
    rw [applyOps, List.foldl_cons]
    rw [applyOps] at h2
    exact ⟨h2.1, h2.2.trans h1.2⟩

/-- Eviction is idempotent in every mode. -/
theorem clear_old_cache_idem {α : Type} (st : CacheState α) (today : String) :
    clear_old_cache (clear_old_cache st today) today = clear_old_cache st today := by
  by_cases hf : st.use_file_cache
  · by_cases hw : st.fs_writable
    · simp [clear_old_cache, hf, hw, List.filter_filter]
    · simp [clear_old_cache, hf, hw]
  · simp [clear_old_cache, hf, List.filter_filter]

/-- A run of characters matches at the start of itself followed by
anything. -/
theorem charRunAt_append_self : ∀ (n post : List Char),
    charRunAt n (n ++ post) = true
  | [], _ => rfl
  | c :: t, post => by simp [charRunAt, charRunAt_append_self t post]

/-- The empty run occurs in every list. -/
theorem charRunIn_nil_left : ∀ l : List Char, charRunIn [] l = true
  | [] => rfl
  | _ :: _ => by rw [charRunIn, charRunAt]; rfl

/-- A run of characters occurs in any list that embeds it contiguously. -/
theorem charRunIn_mid : ∀ (pre n post : List Char),
    charRunIn n (pre ++ (n ++ post)) = true
  | [], n, post => by
    cases n with
    | nil => exact charRunIn_nil_left _
    | cons c t =>
      rw [List.nil_append, List.cons_append, charRunIn]
      have h := charRunAt_append_self (c :: t) post
      rw [List.cons_append] at h
      rw [h, Bool.true_or]
  | c :: pre, n, post => by
    rw [List.cons_append, charRunIn, charRunIn_mid pre n post, Bool.or_true]

/-- Character data of a string append. -/
theorem strToList_append (a b : String) : (a ++ b).toList = a.toList ++ b.toList := by
  simp [String.toList, String.data_append]

/-- The in-memory cache key always contains the date it was built from, so
entries saved today survive `clear_old_cache`'s substring test. -/
theorem key_contains_today (c : String) (cat : Option String) (d : String) :
    strContainsSub (get_cache_key c cat d) d = true := by
  unfold strContainsSub get_cache_key
  cases htc : truthyCat cat with
  | none =>
    show charRunIn d.toList ((c ++ "_" ++ d).toList) = true
    rw [strToList_append]
    have := charRunIn_mid ((c ++ "_").toList) d.toList []
    rwa [List.append_nil] at this
  | some cc =>
    show charRunIn d.toList ((c ++ "_" ++ cc ++ "_" ++ d).toList) = true
    rw [strToList_append]
    have := charRunIn_mid ((c ++ "_" ++ cc ++ "_").toList) d.toList []
    rwa [List.append_nil] at this

/-! ## Claims -/

/-- C1 counterexample: calling the assembler with empty chat history and an
empty selected article still emits the selected-article label — the
selected-article block is never omitted — and the entire output is the
selected-article and similar-articles blocks: no user-message block exists
(`build_prompt` takes no user message), refuting the claimed layout. -/
theorem c1_counterexample :
    (build_prompt [] "" ["SimA"] 1000000).1
      = "Selected article:\n\nSimilar articles:\nSimA\n" ∧
    strContainsSub (build_prompt [] "" ["SimA"] 1000000).1 "Selected article:"
      = true := by
  constructor <;> decide

/-- C1 (amended): the prompt produced by `build_prompt` consists of, in
fixed order, a chat-history block (omitted exactly when the chat history is
empty), a selected-article block (always present, even when the article
text is empty), and a similar-articles block over the possibly-trimmed list
(omitted exactly when that list is empty), each headed by its fixed label;
there is no user-message block. -/
theorem c1_prompt_layout (ch : List String) (sa : String) (sim : List String)
    (lim : Nat) :
    ∃ k, (build_prompt ch sa sim lim).2 = sim.take k ∧
      (build_prompt ch sa sim lim).1 =
        (if ch.isEmpty then "" else
          "Chat history:\n" ++ String.intercalate "\n" ch ++ "\n")
        ++ ("Selected article:\n" ++ sa ++ "\n")
        ++ (if (sim.take k).isEmpty then "" else
          "Similar articles:\n" ++ String.intercalate "\n" (sim.take k) ++ "\n") := by
  obtain ⟨k, _, heq, _, _⟩ := build_prompt_char ch sa sim lim
  exact ⟨k, by rw [heq], by rw [heq]; rfl⟩

/-- C2: `get` after `put` on the same calendar day returns exactly the list
most recently put (from any prior cache state, in any mode), and `get` on a
different calendar day (a different injected "today") returns `none` even
though the same (country, category) key was populated the day before
(starting from an empty cache in any mode). -/
theorem c2_cache_date_invariant {α : Type} (st : CacheState α) (fm w : Bool)
    (arts : List α) (c : String) (cat : Option String) (d d' ts : String) :
    get_cached_headlines (save_headlines st arts c cat d ts).2 c cat d
      = some arts ∧
    (d ≠ d' → get_cached_headlines
      (save_headlines (⟨fm, [], [], w⟩ : CacheState α) arts c cat d ts).2 c cat d'
      = none) :=
  ⟨get_after_save st arts c cat d ts,
   fun h => save_get_other_day fm w arts c cat d d' ts h⟩

/-- Witness for C2 at a concrete key, list and pair of days. -/
theorem c2_cache_date_invariant_witness :
    get_cached_headlines
      (save_headlines (⟨false, [], [], true⟩ : CacheState Nat) [1, 2] "us"
        (some "business") "2024-01-01" "T12").2 "us" (some "business")
      "2024-01-01" = some [1, 2] ∧
    get_cached_headlines
      (save_headlines (⟨false, [], [], true⟩ : CacheState Nat) [1, 2] "us"
        (some "business") "2024-01-01" "T12").2 "us" (some "business")
      "2024-01-02" = none := by
  have h := c2_cache_date_invariant (⟨false, [], [], true⟩ : CacheState Nat)
    false true [1, 2] "us" (some "business") "2024-01-01" "2024-01-02" "T12"
  exact ⟨h.1, h.2 (by decide)⟩

/-- C3 counterexample: with a zero token budget the trimming loop pops the
caller's similar-articles list down to empty, so after the call the
caller's sequence (second component of the embedding) is not equal to its
value before the call. -/
theorem c3_counterexample :
    (build_prompt [] "" ["aaaa"] 0).2 ≠ ["aaaa"] := by decide

/-- C3 (amended): `build_prompt` is not side-effect-free: it trims the
caller's similar-articles list in place.  After the call the caller's list
is a `take`-prefix of its original value, and it is unchanged exactly in
the no-trim case — in particular whenever the initial full prompt is
already within the token budget. -/
theorem c3_similar_articles_mutation (ch : List String) (sa : String)
    (sim : List String) (lim : Nat) :
    (∃ k, (build_prompt ch sa sim lim).2 = sim.take k) ∧
    (count_tokens (renderPrompt ch sa sim) ≤ lim →
      (build_prompt ch sa sim lim).2 = sim) := by
  constructor
  · obtain ⟨k, _, heq, _, _⟩ := build_prompt_char ch sa sim lim
    exact ⟨k, by rw [heq]⟩
  · intro h
    rw [build_prompt_no_trim ch sa sim lim h]

/-- Witness for C3 (amended): a call comfortably within budget leaves the
caller's list unchanged. -/
theorem c3_similar_articles_mutation_witness :
    (build_prompt ["Hi"] "A" ["S1"] 1000).2 = ["S1"] :=
  (c3_similar_articles_mutation ["Hi"] "A" ["S1"] 1000).2 (by decide)

/-- C4: the trimming loop of `build_prompt` returns the prompt rebuilt from
scratch over a prefix `sim.take k` of the similar articles (articles are
removed only from the end), it stops only when within budget or with the
list exhausted (in which case the over-budget prompt is returned as-is),
and every strictly longer prefix would still exceed the budget.
Concretely: with 5 articles and a budget that only 2 articles' worth of
text satisfies, the result keeps exactly the first 2 in input order, and
with a budget below the non-trimmable sections the result has zero similar
articles, without raising. -/
theorem c4_trimming_correctness (ch : List String) (sa : String)
    (sim : List String) (lim : Nat) :
    (∃ k, k ≤ sim.length ∧
      build_prompt ch sa sim lim = (renderPrompt ch sa (sim.take k), sim.take k) ∧
      (count_tokens (renderPrompt ch sa (sim.take k)) ≤ lim ∨ sim.take k = []) ∧
      (∀ j, k < j → j ≤ sim.length →
        lim < count_tokens (renderPrompt ch sa (sim.take j)))) ∧
    build_prompt [] "" ["AAAAAAAA", "BBBBBBBB", "CCCCCCCC", "DDDDDDDD", "EEEEEEEE"] 13
      = (renderPrompt [] "" ["AAAAAAAA", "BBBBBBBB"], ["AAAAAAAA", "BBBBBBBB"]) ∧
    build_prompt [] "" ["AAAAAAAA", "BBBBBBBB", "CCCCCCCC", "DDDDDDDD", "EEEEEEEE"] 3
      = (renderPrompt [] "" [], []) := by
  refine ⟨?_, by decide, by decide⟩
  obtain ⟨k, hk, heq, hbud, hmax⟩ := build_prompt_char ch sa sim lim
  refine ⟨k, hk, heq, ?_, hmax⟩
  rcases hbud with h | h
  · exact Or.inl h
  · subst h
    exact Or.inr (by simp)

/-- C5: a durable write that fails at runtime propagates no exception
(`save_headlines` still returns `True`); the cache silently converts to
in-memory mode, the write is retried against memory — a same-day `get`
returns the list just put — and a subsequent `put`/`get` pair on the same
key succeeds via in-memory storage with consistent data. -/
theorem c5_write_failure_fallback {α : Type} (st : CacheState α)
    (arts arts2 : List α) (c : String) (cat : Option String) (d ts ts2 : String)
    (hf : st.use_file_cache = true) (hw : st.fs_writable = false) :
    (save_headlines st arts c cat d ts).1 = true ∧
    (save_headlines st arts c cat d ts).2.use_file_cache = false ∧
    get_cached_headlines (save_headlines st arts c cat d ts).2 c cat d
      = some arts ∧
    (save_headlines (save_headlines st arts c cat d ts).2 arts2 c cat d ts2).1
      = true ∧
    get_cached_headlines
      (save_headlines (save_headlines st arts c cat d ts).2 arts2 c cat d ts2).2
      c cat d = some arts2 := by
  refine ⟨?_, ?_, get_after_save st arts c cat d ts, ?_,
    get_after_save _ arts2 c cat d ts2⟩
  · simp [save_headlines, hf, hw]
  · simp [save_headlines, hf, hw]
  · simp [save_headlines, hf, hw]

/-- Witness for C5: concrete failed durable write followed by a `put`/`get`
pair on the same key. -/
theorem c5_write_failure_fallback_witness :
    get_cached_headlines
      (save_headlines (save_headlines (⟨true, [], [], false⟩ : CacheState Nat)
        [1] "us" none "2024-01-01" "T1").2 [2] "us" none "2024-01-01" "T2").2
      "us" none "2024-01-01" = some [2] :=
  (c5_write_failure_fallback (⟨true, [], [], false⟩ : CacheState Nat) [1] [2]
    "us" none "2024-01-01" "T1" "T2" rfl rfl).2.2.2.2

/-- C6: at initialization the cache operates in durable (file) mode iff the
deployment enables services (development/staging) and both the directory
creation and the probe write succeed; when services are restricted it is
always in memory mode, and no sequence of cache operations ever changes the
local files from that mode. -/
theorem c6_mode_selection {α : Type} (deployment : String) (mk pr w : Bool)
    (files : List (String × FileData α)) (ops : List (CacheOp α)) :
    ((initCache deployment mk pr files w).use_file_cache = true ↔
      (should_use_external_services deployment = true ∧ mk = true ∧ pr = true)) ∧
    (should_use_external_services deployment = false →
      (applyOps (initCache deployment mk pr files w) ops).use_file_cache = false ∧
      (applyOps (initCache deployment mk pr files w) ops).files = files) := by
  constructor
  · cases hs : should_use_external_services deployment <;>
      cases mk <;> cases pr <;> simp [initCache, hs]
  · intro hs
    have hin : (initCache (α := α) deployment mk pr files w).use_file_cache
        = false := by
      simp [initCache, hs]
    have h := applyOps_mem_mode ops _ hin
    have hfiles : (initCache (α := α) deployment mk pr files w).files = files := by
      unfold initCache
      split <;> [skip; rfl]
      split <;> rfl
    exact ⟨h.1, h.2.trans hfiles⟩

/-- Witness for C6: a production deployment with a fully writable
filesystem still runs in memory mode, and a `save` writes no file. -/
theorem c6_mode_selection_witness :
    (applyOps (initCache "production" true true
        ([] : List (String × FileData Nat)) true)
      [CacheOp.save [5] "us" none "2024-01-01" "T"]).use_file_cache = false ∧
    (applyOps (initCache "production" true true
        ([] : List (String × FileData Nat)) true)
      [CacheOp.save [5] "us" none "2024-01-01" "T"]).files = [] := by
  have h := c6_mode_selection (α := Nat) "production" true true true []
    [CacheOp.save [5] "us" none "2024-01-01" "T"]
  exact ⟨(h.2 (by decide)).1, (h.2 (by decide)).2⟩

/-- C7 counterexample: in the in-memory cache, an entry saved under country
"2024-01-02" on day "2024-01-01" gets key "2024-01-02_2024-01-01", whose
key date ("2024-01-01") is not today ("2024-01-02"); yet `clear_old_cache`
keeps the whole state unchanged, because the code tests `today not in key`
as a substring and today's date occurs inside the country part of the key —
refuting "removes all entries whose key date is not today". -/
theorem c7_counterexample :
    clear_old_cache
      (save_headlines (⟨false, [], [], true⟩ : CacheState Nat) [7]
        "2024-01-02" none "2024-01-01" "T").2 "2024-01-02"
      = (save_headlines (⟨false, [], [], true⟩ : CacheState Nat) [7]
        "2024-01-02" none "2024-01-01" "T").2 ∧
    lookupKey "2024-01-02_2024-01-01"
      (clear_old_cache
        (save_headlines (⟨false, [], [], true⟩ : CacheState Nat) [7]
          "2024-01-02" none "2024-01-01" "T").2 "2024-01-02").memory_cache
      = some ⟨"2024-01-01", "T", "2024-01-02", none, [7]⟩ := by
  constructor <;> decide

/-- C7 (amended): `clear_old_cache` removes exactly the entries whose key
(memory mode) or file name (file mode, among `headlines_*.json` glob
matches, when the filesystem permits deletion) does not contain today's
date string as a substring; keys written today always contain today's date
and are kept, and for ordinary country/category values that do not embed a
date the substring test coincides with "key date is today".  It is
idempotent and safe on an empty cache, and after puts on three distinct
dates for one (country, category) it leaves exactly today's entry. -/
theorem c7_evict_semantics {α : Type} (st : CacheState α) (today : String)
    (c : String) (cat : Option String) :
    (st.use_file_cache = false →
      (clear_old_cache st today).memory_cache
        = st.memory_cache.filter (fun p => strContainsSub p.1 today) ∧
      (clear_old_cache st today).files = st.files) ∧
    (st.use_file_cache = true → st.fs_writable = true →
      (clear_old_cache st today).files
        = st.files.filter (fun p => ¬ globMatch p.1 ∨ strContainsSub p.1 today) ∧
      (clear_old_cache st today).memory_cache = st.memory_cache) ∧
    strContainsSub (get_cache_key c cat today) today = true ∧
    clear_old_cache (clear_old_cache st today) today = clear_old_cache st today ∧
    clear_old_cache (⟨st.use_file_cache, [], [], st.fs_writable⟩ : CacheState α)
      today = ⟨st.use_file_cache, [], [], st.fs_writable⟩ ∧
    (clear_old_cache
      (applyOps (⟨false, [], [], true⟩ : CacheState Nat)
        [.save [1] "us" (some "biz") "2024-01-01" "T1",
         .save [2] "us" (some "biz") "2024-01-02" "T2",
         .save [3] "us" (some "biz") "2024-01-03" "T3"]) "2024-01-03").memory_cache
      = [("us_biz_2024-01-03", ⟨"2024-01-03", "T3", "us", some "biz", [3]⟩)] := by
  refine ⟨?_, ?_, key_contains_today c cat today,
    clear_old_cache_idem st today, ?_, by decide⟩
  · intro h
    constructor <;> simp [clear_old_cache, h]
  · intro h hw
    constructor <;> simp [clear_old_cache, h, hw]
  · cases hf : st.use_file_cache <;> cases hw : st.fs_writable <;>
      simp [clear_old_cache]

/-- Witness for C7 (amended): a stale ordinary entry is evicted. -/
theorem c7_evict_semantics_witness :
    (clear_old_cache
      (⟨false, [("us_2024-01-01", ⟨"2024-01-01", "T", "us", none, [1]⟩)], [],
        true⟩ : CacheState Nat) "2024-01-02").memory_cache = [] := by
  have h := c7_evict_semantics
    (⟨false, [("us_2024-01-01", ⟨"2024-01-01", "T", "us", none, [1]⟩)], [],
      true⟩ : CacheState Nat) "2024-01-02" "us" none
  rw [(h.1 rfl).1]
  decide

/-- C8: the trimming loop terminates within `len(similar_articles) + 1`
iterations: the step-bounded loop, given `sim.length + 1` evaluations of
the loop condition, finishes and produces exactly the result of
`build_prompt`. -/
theorem c8_trimming_iteration_bound (ch : List String) (sa : String)
    (sim : List String) (lim : Nat) :
    trimLoopB ch sa lim (sim.length + 1) sim = some (build_prompt ch sa sim lim) :=
  trimLoopB_complete ch sa lim sim.length sim (Nat.le_refl _)

/-- C9: in file mode, a cache entry whose file cannot be read (it is gone —
`FileNotFoundError`) or whose contents fail JSON parsing
(`JSONDecodeError`) is treated as a cache miss: `get_cached_headlines`
returns `none` instead of raising, proceeding as if no entry existed. -/
theorem c9_malformed_cache_miss {α : Type} (st : CacheState α) (c : String)
    (cat : Option String) (d : String) (hf : st.use_file_cache = true) :
    (lookupKey (get_cache_filename c cat d) st.files = some FileData.malformed →
      get_cached_headlines st c cat d = none) ∧
    (lookupKey (get_cache_filename c cat d) st.files = none →
      get_cached_headlines st c cat d = none) := by
  constructor <;> intro h <;>
    simp [get_cached_headlines, is_cache_valid, hf, h]

/-- Witness for C9: a concrete malformed cache file yields a miss. -/
theorem c9_malformed_cache_miss_witness :
    get_cached_headlines
      (⟨true, [], [(get_cache_filename "us" none "2024-01-01",
        FileData.malformed)], true⟩ : CacheState Nat) "us" none "2024-01-01"
      = none :=
  (c9_malformed_cache_miss
    (⟨true, [], [(get_cache_filename "us" none "2024-01-01",
      FileData.malformed)], true⟩ : CacheState Nat) "us" none "2024-01-01"
    rfl).1 (by decide)

/-- C10: `build_prompt` is total exactly when `selected_article` is a
string: with any string (possibly empty) it returns a prompt, while with
the `None` the chat route supplies when the client selects no article, the
unconditional selected-article concatenation raises `TypeError` instead of
omitting the block. -/
theorem c10_none_selected_article_type_error (ch : List String)
    (sim : List String) (lim : Nat) :
    (∀ s : String, build_prompt_opt ch (some s) sim lim
      = Except.ok (build_prompt ch s sim lim)) ∧
    (∀ out, build_prompt_opt ch none sim lim ≠ Except.ok out) ∧
    build_prompt_opt ch none sim lim
      = Except.error "TypeError: can only concatenate str (not NoneType) to str" := by
  refine ⟨fun s => rfl, ?_, rfl⟩
  intro out h
  simp [build_prompt_opt] at h

/-- Witness for C10: concrete calls with an (empty) string and with
`None`. -/
theorem c10_none_selected_article_type_error_witness :
    build_prompt_opt [] (some "") ["S"] 1000
      = Except.ok (build_prompt [] "" ["S"] 1000) ∧
    build_prompt_opt [] none ["S"] 1000
      = Except.error "TypeError: can only concatenate str (not NoneType) to str" :=
  ⟨(c10_none_selected_article_type_error [] ["S"] 1000).1 "",
   (c10_none_selected_article_type_error [] ["S"] 1000).2.2⟩

end NewsAgent
